import Mathlib

/-!
# weather-app: the search orchestration and the forecast table of `src/App.js`

The React component `App` keeps four state slots (`city`, `forecast`, `loading`,
`error`) and one value in `localStorage` under the key `"lastCity"`.  Its code is
embedded here as pure functions over an explicit state `Sys`; what the outside
world answers (the two HTTP calls, the storage faults) is a parameter `World`.

* A JavaScript number that came out of a JSON response is a finite double, hence a
  rational: numbers are `ℚ`.  `null` and `undefined` are both `none`: they render
  the same way and both compare `false` against `> 60`.
* An `await` that never settles is the completion `pending`; a `throw` (or a
  rejected promise) is `threw`.
* One run of a handler is one function application: no other event is interleaved
  between its `await`s.
-/

namespace WeatherApp

/-! ## Data -/

/-- How a piece of code finishes: it returns, it throws, or it waits forever on a
promise that never settles. -/
inductive Completion where
  | normal
  | threw
  | pending
  deriving DecidableEq, Repr

/-- One element of `geoRes.data.results`, with the three fields line 38 destructures. -/
structure GeoResult where
  latitude : ℚ
  longitude : ℚ
  name : String
  deriving DecidableEq

/-- The `daily` object of the forecast response: the date array and the four
requested arrays.  Lengths are independent and any entry may be `null` (`none`). -/
structure Daily where
  time : List String
  temperature_2m_max : List (Option ℚ)
  temperature_2m_min : List (Option ℚ)
  precipitation_sum : List (Option ℚ)
  precipitation_probability_max : List (Option ℚ)
  deriving DecidableEq

/-- The object built at lines 56-59: the spread of `weatherRes.data.daily` (spreading
`undefined` adds nothing: `daily = none`), then the key `location`. -/
structure Forecast where
  daily : Option Daily
  location : String
  deriving DecidableEq

/-- What `axios.get` on the geocoding endpoint does (line 28). -/
inductive GeoReply where
  /-- the promise never settles -/
  | pending
  /-- the promise rejects (transport failure, non-2xx status) -/
  | rejected
  /-- it resolves, but `geoRes.data` is `null` or `undefined` -/
  | noData
  /-- it resolves with a `data` object; `results` is missing (`none`) or an array -/
  | data (results : Option (List GeoResult))

/-- What `axios.get` on the forecast endpoint does (line 42). -/
inductive WeatherReply where
  /-- the promise never settles -/
  | pending
  /-- the promise rejects -/
  | rejected
  /-- it resolves, but `weatherRes.data` is `null` or `undefined` -/
  | noData
  /-- it resolves with a `data` object; `daily` is missing (`none`) or present -/
  | data (daily : Option Daily)

/-- The environment of one run. -/
structure World where
  /-- answer of the geocoding endpoint to `name=<text>` -/
  geocode : String → GeoReply
  /-- answer of the forecast endpoint to `latitude`, `longitude` -/
  weather : ℚ → ℚ → WeatherReply
  /-- whether `localStorage.getItem("lastCity")` throws -/
  getItemThrows : Bool
  /-- whether `localStorage.setItem("lastCity", v)` throws -/
  setItemThrows : String → Bool

/-- Observable effects other than state updates, in the order they happen. -/
inductive Event where
  | preventDefault
  | geoRequest (name : String)
  | forecastRequest (latitude longitude : ℚ)
  | consoleError
  deriving DecidableEq

/-- Whether an event is a network request. -/
def Event.isRequest : Event → Bool
  | .geoRequest _ => true
  | .forecastRequest _ _ => true
  | _ => false

/-- The component state (lines 5-8), the stored value of `"lastCity"`, and the
effects so far. -/
structure Sys where
  city : String
  forecast : Option Forecast
  loading : Bool
  error : String
  lastCity : Option String
  trace : List Event
  deriving DecidableEq

/-- State of a freshly mounted component (the `useState` initial values), over a
given stored city. -/
def Sys.initial (stored : Option String) : Sys :=
  { city := "", forecast := none, loading := false, error := "", lastCity := stored, trace := [] }

/-! ## State setters -/

def setCity (v : String) (s : Sys) : Sys := { s with city := v }

def setForecast (v : Forecast) (s : Sys) : Sys := { s with forecast := some v }

def setLoading (v : Bool) (s : Sys) : Sys := { s with loading := v }

def setError (v : String) (s : Sys) : Sys := { s with error := v }

/-- A successful `localStorage.setItem("lastCity", v)`. -/
def setItem (v : String) (s : Sys) : Sys := { s with lastCity := some v }

def emit (e : Event) (s : Sys) : Sys := { s with trace := s.trace ++ [e] }

/-! ## `String.prototype.trim` -/

/-- ECMAScript `WhiteSpace` and `LineTerminator` code points, the ones `trim` strips. -/
def isJsWhiteSpace (c : Char) : Bool :=
  let n := c.toNat
  n == 0x09 || n == 0x0A || n == 0x0B || n == 0x0C || n == 0x0D || n == 0x20 ||
  n == 0xA0 || n == 0x1680 || (0x2000 ≤ n && n ≤ 0x200A) || n == 0x2028 ||
  n == 0x2029 || n == 0x202F || n == 0x205F || n == 0x3000 || n == 0xFEFF

def jsTrimChars (cs : List Char) : List Char :=
  ((cs.dropWhile isJsWhiteSpace).reverse.dropWhile isJsWhiteSpace).reverse

def jsTrim (s : String) : String := String.mk (jsTrimChars s.data)

/-! ## `fetchForecastByCity` (lines 22-67) -/

def notFoundMessage : String := "City not found. Please try again."

def fetchFailedMessage : String := "Could not fetch weather. Please try again."

/-- The `try` block, lines 24-59. -/
def fetchTryBlock (w : World) (cityName : String) (s0 : Sys) : Completion × Sys :=
  let s1 := setError "" (setLoading true s0)
  let s2 := emit (.geoRequest cityName) s1
  match w.geocode cityName with
  | .pending => (.pending, s2)
  | .rejected => (.threw, s2)
  | .noData => (.threw, s2)
  | .data none => (.normal, setLoading false (setError notFoundMessage s2))
  | .data (some []) => (.normal, setLoading false (setError notFoundMessage s2))
  | .data (some (first :: _)) =>
    if w.setItemThrows first.name then (.threw, s2)
    else
      let s3 := setItem first.name s2
      let s4 := emit (.forecastRequest first.latitude first.longitude) s3
      match w.weather first.latitude first.longitude with
      | .pending => (.pending, s4)
      | .rejected => (.threw, s4)
      | .noData => (.threw, s4)
      | .data daily => (.normal, setForecast { daily := daily, location := first.name } s4)

/-- The whole function: `try` block, `catch` (lines 61-63), `finally` (line 65). -/
def fetchForecastByCity (w : World) (cityName : String) (s0 : Sys) : Completion × Sys :=
  match fetchTryBlock w cityName s0 with
  | (.pending, s) => (.pending, s)
  | (.threw, s) => (.normal, setLoading false (setError fetchFailedMessage (emit .consoleError s)))
  | (.normal, s) => (.normal, setLoading false s)

/-! ## The startup effect (lines 11-20) and `handleSubmit` (lines 69-74) -/

def defaultCity : String := "Jammalamadugu"

/-- The effect body.  `if (savedCity)` is the truthiness test: `null` and `""` are falsy.
The result is `threw` when the effect itself throws; otherwise it is the outcome of
the search the effect starts (the effect does not await it). -/
def startup (w : World) (s0 : Sys) : Completion × Sys :=
  if w.getItemThrows then (.threw, s0)
  else
    match s0.lastCity with
    | some savedCity =>
      if savedCity ≠ "" then fetchForecastByCity w savedCity (setCity savedCity s0)
      else fetchForecastByCity w defaultCity (setCity defaultCity s0)
    | none => fetchForecastByCity w defaultCity (setCity defaultCity s0)

/-- The submit handler; when it starts a search the result is that search's outcome. -/
def handleSubmit (w : World) (s0 : Sys) : Completion × Sys :=
  let s1 := emit .preventDefault s0
  if jsTrim s1.city ≠ "" then fetchForecastByCity w s1.city s1
  else (.normal, s1)

/-! ## Rendering (lines 91-137) -/

/-- The array read `xs[index]`: `undefined` out of range, and `null` entries, are `none`. -/
def jsIndex (xs : List (Option ℚ)) (index : Nat) : Option ℚ := (xs[index]?).join

/-- The test `rainChance > 60`: `null` converts to `0` and `undefined` to `NaN`, both
give `false`. -/
def rainChanceAbove60 (rainChance : Option ℚ) : Bool :=
  match rainChance with
  | some p => decide (p > 60)
  | none => false

def rainText (rainChance : Option ℚ) : String :=
  if rainChanceAbove60 rainChance then "Yes / అవును" else "No / లేదు"

def rainColor (rainChance : Option ℚ) : String :=
  if rainChanceAbove60 rainChance then "green" else "red"

/-- One `<tr>`: its key, its striping, and its six cells. -/
structure Row where
  key : String
  rowEven : Bool
  date : String
  rainMm : Option ℚ
  chance : Option ℚ
  rainLabel : String
  rainLabelColor : String
  maxC : Option ℚ
  minC : Option ℚ
  deriving DecidableEq

/-- The callback of `forecast.time.map`, lines 109-126. -/
def renderRow (d : Daily) (index : Nat) (day : String) : Row :=
  let rainChance := jsIndex d.precipitation_probability_max index
  { key := day
    rowEven := index % 2 == 0
    date := day
    rainMm := jsIndex d.precipitation_sum index
    chance := rainChance
    rainLabel := rainText rainChance
    rainLabelColor := rainColor rainChance
    maxC := jsIndex d.temperature_2m_max index
    minC := jsIndex d.temperature_2m_min index }

def renderRows (d : Daily) : List Row := d.time.mapIdx (renderRow d)

/-- The block under `forecast &&`: heading and rows.  `none` when `forecast.time` is
`undefined`, where `.map` throws. -/
def renderForecast (f : Forecast) : Option (String × List Row) :=
  match f.daily with
  | none => none
  | some d => some (f.location, renderRows d)

/-- What the component shows. -/
structure View where
  loadingNote : Bool
  errorNote : Option String
  table : Option (String × List Row)
  tip : Bool
  deriving DecidableEq

/-- The `return` of `App`; `none` when rendering throws. -/
def render (s : Sys) : Option View :=
  let errorNote := if s.error ≠ "" then some s.error else none
  match s.forecast with
  | none => some { loadingNote := s.loading, errorNote := errorNote, table := none, tip := true }
  | some f =>
    match renderForecast f with
    | none => none
    | some t => some { loadingNote := s.loading, errorNote := errorNote, table := some t, tip := false }

/-! ## Sample inputs -/

def gunturResult : GeoResult := { latitude := 16, longitude := 80, name := "Guntur" }

def sampleDaily : Daily :=
  { time := ["2024-06-01", "2024-06-02", "2024-06-03"]
    temperature_2m_max := [some 38, some 36, some 35]
    temperature_2m_min := [some 27, some 26, none]
    precipitation_sum := [some 0, some 4, some 12]
    precipitation_probability_max := [some 60, some 61, none] }

/-- Both endpoints answer and storage works. -/
def sampleWorld : World :=
  { geocode := fun _ => .data (some [gunturResult])
    weather := fun _ _ => .data (some sampleDaily)
    getItemThrows := false
    setItemThrows := fun _ => false }

/-- The geocoding endpoint answers with an empty `results` array. -/
def noMatchWorld : World :=
  { geocode := fun _ => .data (some [])
    weather := fun _ _ => .data (some sampleDaily)
    getItemThrows := false
    setItemThrows := fun _ => false }

/-- The forecast request rejects. -/
def forecastDownWorld : World :=
  { geocode := fun _ => .data (some [gunturResult])
    weather := fun _ _ => .rejected
    getItemThrows := false
    setItemThrows := fun _ => false }

/-- Every access to `localStorage` throws. -/
def storageBlockedWorld : World :=
  { geocode := fun _ => .data (some [gunturResult])
    weather := fun _ _ => .data (some sampleDaily)
    getItemThrows := true
    setItemThrows := fun _ => true }

/-- A state left by an earlier successful search for another city. -/
def afterKadapa : Sys :=
  { city := "Kadapa"
    forecast := some { daily := some sampleDaily, location := "Kadapa" }
    loading := false
    error := ""
    lastCity := some "Kadapa"
    trace := [] }

end WeatherApp

namespace WeatherApp

/-! ## Shared lemmas -/

theorem jsTrimChars_eq_nil_iff (cs : List Char) :
    jsTrimChars cs = [] ↔ ∀ c ∈ cs, isJsWhiteSpace c = true := by
  unfold jsTrimChars
  constructor
  · intro h
    rw [List.reverse_eq_nil_iff, List.dropWhile_eq_nil_iff] at h
    by_contra hne
    push_neg at hne
    obtain ⟨c, hc, hcw⟩ := hne
    have hne2 : cs.dropWhile isJsWhiteSpace ≠ [] := by
      intro h0
      rw [List.dropWhile_eq_nil_iff] at h0
      exact hcw (h0 c hc)
    have hhead := List.head_dropWhile_not isJsWhiteSpace cs hne2
    have hmem : (cs.dropWhile isJsWhiteSpace).head hne2 ∈ (cs.dropWhile isJsWhiteSpace).reverse :=
      List.mem_reverse.mpr (List.head_mem hne2)
    have := h _ hmem
    simp [this] at hhead
  · intro h
    have h0 : cs.dropWhile isJsWhiteSpace = [] := List.dropWhile_eq_nil_iff.mpr h
    simp [h0]

theorem jsTrim_eq_empty_iff (t : String) :
    jsTrim t = "" ↔ ∀ c ∈ t.data, isJsWhiteSpace c = true := by
  rw [← jsTrimChars_eq_nil_iff]
  unfold jsTrim
  constructor
  · intro h
    have := congrArg String.data h
    simpa using this
  · intro h
    rw [h]

/-- The search leaves the input text alone. -/
theorem fetch_city (w : World) (cityName : String) (s : Sys) :
    (fetchForecastByCity w cityName s).2.city = s.city := by
  unfold fetchForecastByCity fetchTryBlock
  cases hg : w.geocode cityName with
  | pending => simp [emit, setError, setLoading]
  | rejected => simp [emit, setError, setLoading]
  | noData => simp [emit, setError, setLoading]
  | data results =>
    rcases results with _ | (_ | ⟨first, rest⟩)
    · simp [emit, setError, setLoading]
    · simp [emit, setError, setLoading]
    · by_cases hset : w.setItemThrows first.name = true
      · simp [hset, emit, setError, setLoading]
      · cases hw : w.weather first.latitude first.longitude <;>
          simp [hset, hw, emit, setError, setLoading, setItem, setForecast]

/-- The first effect of the search is the geocoding request for the text it was given. -/
theorem fetch_trace_starts (w : World) (cityName : String) (s : Sys) :
    (s.trace ++ [Event.geoRequest cityName]) <+: (fetchForecastByCity w cityName s).2.trace := by
  unfold fetchForecastByCity fetchTryBlock
  cases hg : w.geocode cityName with
  | pending => simp [emit, setError, setLoading]
  | rejected => simp [emit, setError, setLoading]
  | noData => simp [emit, setError, setLoading]
  | data results =>
    rcases results with _ | (_ | ⟨first, rest⟩)
    · simp [emit, setError, setLoading]
    · simp [emit, setError, setLoading]
    · by_cases hset : w.setItemThrows first.name = true
      · simp [hset, emit, setError, setLoading]
      · cases hw : w.weather first.latitude first.longitude <;>
          simp [hset, hw, emit, setError, setLoading, setItem, setForecast]

/-- The final state of a search whose two calls both answer. -/
theorem fetch_success_eq (w : World) (cityName : String) (s : Sys)
    (first : GeoResult) (rest : List GeoResult) (daily : Option Daily)
    (hgeo : w.geocode cityName = .data (some (first :: rest)))
    (hset : w.setItemThrows first.name = false)
    (hweather : w.weather first.latitude first.longitude = .data daily) :
    fetchForecastByCity w cityName s =
      (.normal,
        { city := s.city
          forecast := some { daily := daily, location := first.name }
          loading := false
          error := ""
          lastCity := some first.name
          trace := s.trace ++
            [Event.geoRequest cityName, Event.forecastRequest first.latitude first.longitude] }) := by
  simp [fetchForecastByCity, fetchTryBlock, hgeo, hset, hweather, emit, setError, setLoading,
    setItem, setForecast]

/-- The `catch` is a catch-all: the search itself never throws. -/
theorem fetch_never_throws (w : World) (cityName : String) (s : Sys) :
    (fetchForecastByCity w cityName s).1 ≠ .threw := by
  unfold fetchForecastByCity
  rcases fetchTryBlock w cityName s with ⟨c, s1⟩
  cases c <;> simp

/-- The search stays pending exactly when one of the two requests it awaits never
settles. -/
theorem fetch_pending_iff (w : World) (cityName : String) (s : Sys) :
    (fetchForecastByCity w cityName s).1 = .pending ↔
      (w.geocode cityName = .pending ∨
        ∃ first rest, w.geocode cityName = .data (some (first :: rest)) ∧
          w.setItemThrows first.name = false ∧
          w.weather first.latitude first.longitude = .pending) := by
  unfold fetchForecastByCity fetchTryBlock
  cases hg : w.geocode cityName with
  | pending => simp
  | rejected => simp
  | noData => simp
  | data results =>
    rcases results with _ | (_ | ⟨first, rest⟩)
    · simp
    · simp
    · by_cases hset : w.setItemThrows first.name = true
      · simp [hset]
      · cases hw : w.weather first.latitude first.longitude <;> simp [hset, hw]

/-! ## The search: success, no match, forecast failure -/

/-- C1: when the geocoding call answers with at least one result and the forecast
call answers, the search returns with `forecast.location` equal to the `name` of the
first geocoding result and with `"lastCity"` holding that same name, whatever text
was typed (an empty text included). -/
theorem fetch_success_location_and_lastCity (w : World) (cityName : String) (s : Sys)
    (first : GeoResult) (rest : List GeoResult) (daily : Option Daily)
    (hgeo : w.geocode cityName = .data (some (first :: rest)))
    (hset : w.setItemThrows first.name = false)
    (hweather : w.weather first.latitude first.longitude = .data daily) :
    (fetchForecastByCity w cityName s).1 = .normal ∧
    (fetchForecastByCity w cityName s).2.forecast =
      some { daily := daily, location := first.name } ∧
    (fetchForecastByCity w cityName s).2.lastCity = some first.name ∧
    (fetchForecastByCity w cityName s).2.error = "" := by
  rw [fetch_success_eq w cityName s first rest daily hgeo hset hweather]
  exact ⟨rfl, rfl, rfl, rfl⟩

theorem fetch_success_location_and_lastCity_witness :
    sampleWorld.geocode "gunt" = .data (some (gunturResult :: [])) ∧
    (fetchForecastByCity sampleWorld "gunt" afterKadapa).1 = .normal ∧
    (fetchForecastByCity sampleWorld "gunt" afterKadapa).2.forecast =
      some { daily := some sampleDaily, location := gunturResult.name } ∧
    (fetchForecastByCity sampleWorld "gunt" afterKadapa).2.lastCity = some gunturResult.name ∧
    (fetchForecastByCity sampleWorld "gunt" afterKadapa).2.error = "" :=
  ⟨rfl, fetch_success_location_and_lastCity sampleWorld "gunt" afterKadapa gunturResult []
    (some sampleDaily) rfl rfl rfl⟩

/-- C2: when the geocoding response has no `results` field or an empty `results`
array, the search sets the error message to exactly "City not found. Please try again.",
leaves the forecast state and the stored `"lastCity"` as they were, and its only
request is the geocoding one (no forecast request). -/
theorem fetch_not_found (w : World) (cityName : String) (s : Sys)
    (hgeo : w.geocode cityName = .data none ∨ w.geocode cityName = .data (some [])) :
    (fetchForecastByCity w cityName s).2.error = "City not found. Please try again." ∧
    (fetchForecastByCity w cityName s).2.forecast = s.forecast ∧
    (fetchForecastByCity w cityName s).2.lastCity = s.lastCity ∧
    (fetchForecastByCity w cityName s).2.trace = s.trace ++ [Event.geoRequest cityName] := by
  rcases hgeo with hgeo | hgeo <;>
    simp [fetchForecastByCity, fetchTryBlock, hgeo, emit, setError, setLoading, notFoundMessage]

theorem fetch_not_found_witness :
    (fetchForecastByCity noMatchWorld "Atlantis" afterKadapa).2.error
      = "City not found. Please try again." ∧
    (fetchForecastByCity noMatchWorld "Atlantis" afterKadapa).2.forecast = afterKadapa.forecast ∧
    (fetchForecastByCity noMatchWorld "Atlantis" afterKadapa).2.lastCity = afterKadapa.lastCity ∧
    (fetchForecastByCity noMatchWorld "Atlantis" afterKadapa).2.trace
      = afterKadapa.trace ++ [Event.geoRequest "Atlantis"] :=
  fetch_not_found noMatchWorld "Atlantis" afterKadapa (Or.inr rfl)

/-- C3: when geocoding answers with first result named `n`, the name is stored, and
the forecast request then rejects, the final state has `"lastCity"` equal to `n`, the
error message exactly "Could not fetch weather. Please try again.", and the forecast
state it had before the search. -/
theorem fetch_forecast_rejected (w : World) (cityName : String) (s : Sys)
    (first : GeoResult) (rest : List GeoResult)
    (hgeo : w.geocode cityName = .data (some (first :: rest)))
    (hset : w.setItemThrows first.name = false)
    (hweather : w.weather first.latitude first.longitude = .rejected) :
    (fetchForecastByCity w cityName s).2.lastCity = some first.name ∧
    (fetchForecastByCity w cityName s).2.error = "Could not fetch weather. Please try again." ∧
    (fetchForecastByCity w cityName s).2.forecast = s.forecast := by
  simp [fetchForecastByCity, fetchTryBlock, hgeo, hset, hweather, emit, setError, setLoading,
    setItem, fetchFailedMessage]

theorem fetch_forecast_rejected_witness :
    (fetchForecastByCity forecastDownWorld "gunt" afterKadapa).2.lastCity = some "Guntur" ∧
    (fetchForecastByCity forecastDownWorld "gunt" afterKadapa).2.error
      = "Could not fetch weather. Please try again." ∧
    (fetchForecastByCity forecastDownWorld "gunt" afterKadapa).2.forecast = afterKadapa.forecast :=
  fetch_forecast_rejected forecastDownWorld "gunt" afterKadapa gunturResult [] rfl rfl rfl

/-! ## The table -/

/-- C4: in the row rendered for index `index`, when the precipitation probability at
that index is the number `p`, the label is "Yes / అవును" exactly when `p > 60` and the
colour is green exactly when `p > 60`; otherwise they are "No / లేదు" and red (so at
`p = 60`).  For every row, numeric or not, label and colour agree. -/
theorem rain_label_iff_above_60 (d : Daily) (index : Nat) (day : String) (p : ℚ)
    (hp : d.precipitation_probability_max[index]? = some (some p)) :
    ((renderRow d index day).rainLabel = "Yes / అవును" ↔ p > 60) ∧
    ((renderRow d index day).rainLabelColor = "green" ↔ p > 60) ∧
    ((renderRow d index day).rainLabel = "No / లేదు" ↔ ¬ p > 60) ∧
    ((renderRow d index day).rainLabelColor = "red" ↔ ¬ p > 60) ∧
    (p = 60 → (renderRow d index day).rainLabel = "No / లేదు" ∧
      (renderRow d index day).rainLabelColor = "red") ∧
    (∀ (d0 : Daily) (i : Nat) (day0 : String),
      ((renderRow d0 i day0).rainLabel = "Yes / అవును" ∧
        (renderRow d0 i day0).rainLabelColor = "green") ∨
      ((renderRow d0 i day0).rainLabel = "No / లేదు" ∧
        (renderRow d0 i day0).rainLabelColor = "red")) := by
  have hidx : jsIndex d.precipitation_probability_max index = some p := by
    simp [jsIndex, hp]
  have hyn : ("Yes / అవును" : String) ≠ "No / లేదు" := by decide
  have hgr : ("green" : String) ≠ "red" := by decide
  refine ⟨?_, ?_, ?_, ?_, ?_, ?_⟩
  · by_cases h : p > 60 <;>
      simp [renderRow, rainText, rainChanceAbove60, hidx, h, hyn.symm]
  · by_cases h : p > 60 <;>
      simp [renderRow, rainColor, rainChanceAbove60, hidx, h, hgr.symm]
  · by_cases h : p > 60 <;>
      simp [renderRow, rainText, rainChanceAbove60, hidx, h, hyn]
  · by_cases h : p > 60 <;>
      simp [renderRow, rainColor, rainChanceAbove60, hidx, h, hgr]
  · intro h60
    subst h60
    simp [renderRow, rainText, rainColor, rainChanceAbove60, hidx]
  · intro d0 i day0
    by_cases h : rainChanceAbove60 (jsIndex d0.precipitation_probability_max i) = true
    · left
      simp [renderRow, rainText, rainColor, h]
    · right
      simp [renderRow, rainText, rainColor, h]

theorem rain_label_iff_above_60_witness :
    sampleDaily.precipitation_probability_max[0]? = some (some 60) ∧
    (renderRow sampleDaily 0 "2024-06-01").rainLabel = "No / లేదు" ∧
    (renderRow sampleDaily 0 "2024-06-01").rainLabelColor = "red" :=
  ⟨rfl, (rain_label_iff_above_60 sampleDaily 0 "2024-06-01" 60 rfl).2.2.2.2.1 rfl⟩

/-- C5: after a search whose forecast response holds a `daily` object `d`, the view
renders, its table is headed by the resolved name and has exactly `d.time.length`
rows, and row `i` shows `d.time[i]` together with the entries at the same index `i`
of `precipitation_sum`, `precipitation_probability_max`, `temperature_2m_max` and
`temperature_2m_min` (an entry out of range or `null` shows as empty). -/
theorem table_rows_aligned (w : World) (cityName : String) (s : Sys)
    (first : GeoResult) (rest : List GeoResult) (d : Daily)
    (hgeo : w.geocode cityName = .data (some (first :: rest)))
    (hset : w.setItemThrows first.name = false)
    (hweather : w.weather first.latitude first.longitude = .data (some d)) :
    ∃ (v : View) (rows : List Row),
      render (fetchForecastByCity w cityName s).2 = some v ∧
      v.table = some (first.name, rows) ∧
      rows.length = d.time.length ∧
      ∀ (i : Nat) (hi : i < d.time.length), ∃ r : Row,
        rows[i]? = some r ∧
        r.date = d.time[i] ∧
        r.rainMm = (d.precipitation_sum[i]?).join ∧
        r.chance = (d.precipitation_probability_max[i]?).join ∧
        r.maxC = (d.temperature_2m_max[i]?).join ∧
        r.minC = (d.temperature_2m_min[i]?).join := by
  rw [fetch_success_eq w cityName s first rest (some d) hgeo hset hweather]
  refine ⟨View.mk false none (some (first.name, renderRows d)) false, renderRows d,
    ?_, ?_, ?_, ?_⟩
  · simp [render, renderForecast]
  · rfl
  · simp [renderRows]
  · intro i hi
    refine ⟨renderRow d i d.time[i], ?_, rfl, rfl, rfl, rfl, rfl⟩
    simp [renderRows, List.getElem?_eq_getElem hi]

theorem table_rows_aligned_witness :
    ∃ (v : View) (rows : List Row),
      render (fetchForecastByCity sampleWorld "gunt" afterKadapa).2 = some v ∧
      v.table = some (gunturResult.name, rows) ∧
      rows.length = sampleDaily.time.length ∧
      ∀ (i : Nat) (hi : i < sampleDaily.time.length), ∃ r : Row,
        rows[i]? = some r ∧
        r.date = sampleDaily.time[i] ∧
        r.rainMm = (sampleDaily.precipitation_sum[i]?).join ∧
        r.chance = (sampleDaily.precipitation_probability_max[i]?).join ∧
        r.maxC = (sampleDaily.temperature_2m_max[i]?).join ∧
        r.minC = (sampleDaily.temperature_2m_min[i]?).join :=
  table_rows_aligned sampleWorld "gunt" afterKadapa gunturResult [] sampleDaily rfl rfl rfl

/-! ## Startup -/

/-- C6, as stated, fails when the stored string is empty: `""` is falsy, so the input
text becomes the default city and the default city is what is searched. -/
theorem startup_empty_saved_city :
    (Sys.initial (some "")).lastCity = some "" ∧
    sampleWorld.getItemThrows = false ∧
    (startup sampleWorld (Sys.initial (some ""))).2.city = "Jammalamadugu" ∧
    (startup sampleWorld (Sys.initial (some ""))).2.city ≠ "" ∧
    (startup sampleWorld (Sys.initial (some ""))).2.trace =
      [Event.geoRequest "Jammalamadugu", Event.forecastRequest 16 80] := by
  decide

/-- C6, amended: when the storage read returns, every non-empty stored string `saved`
becomes the input text and is what the automatic search is invoked with (its first
effect is the geocoding request for `saved`); when nothing is stored, or the stored
string is empty, the input text is "Jammalamadugu" and the search is invoked with
"Jammalamadugu". -/
theorem startup_saved_or_default (w : World) (s : Sys) (hread : w.getItemThrows = false) :
    (∀ saved : String, s.lastCity = some saved → saved ≠ "" →
      startup w s = fetchForecastByCity w saved (setCity saved s) ∧
      (startup w s).2.city = saved ∧
      (s.trace ++ [Event.geoRequest saved]) <+: (startup w s).2.trace) ∧
    (s.lastCity = none ∨ s.lastCity = some "" →
      startup w s = fetchForecastByCity w "Jammalamadugu" (setCity "Jammalamadugu" s) ∧
      (startup w s).2.city = "Jammalamadugu" ∧
      (s.trace ++ [Event.geoRequest "Jammalamadugu"]) <+: (startup w s).2.trace) := by
  constructor
  · intro saved hsaved hne
    have heq : startup w s = fetchForecastByCity w saved (setCity saved s) := by
      simp [startup, hread, hsaved, hne]
    refine ⟨heq, ?_, ?_⟩
    · rw [heq, fetch_city]; rfl
    · rw [heq]; exact fetch_trace_starts w saved (setCity saved s)
  · intro hnone
    have heq : startup w s = fetchForecastByCity w "Jammalamadugu" (setCity "Jammalamadugu" s) := by
      rcases hnone with h | h <;> simp [startup, hread, h, defaultCity]
    refine ⟨heq, ?_, ?_⟩
    · rw [heq, fetch_city]; rfl
    · rw [heq]; exact fetch_trace_starts w "Jammalamadugu" (setCity "Jammalamadugu" s)

theorem startup_saved_or_default_witness :
    sampleWorld.getItemThrows = false ∧
    (Sys.initial (some "Guntur")).lastCity = some "Guntur" ∧
    (startup sampleWorld (Sys.initial (some "Guntur"))).2.city = "Guntur" ∧
    ((Sys.initial (some "Guntur")).trace ++ [Event.geoRequest "Guntur"]) <+:
      (startup sampleWorld (Sys.initial (some "Guntur"))).2.trace ∧
    (startup sampleWorld (Sys.initial none)).2.city = "Jammalamadugu" :=
  ⟨rfl, rfl,
    ((startup_saved_or_default sampleWorld (Sys.initial (some "Guntur")) rfl).1
      "Guntur" rfl (by decide)).2.1,
    ((startup_saved_or_default sampleWorld (Sys.initial (some "Guntur")) rfl).1
      "Guntur" rfl (by decide)).2.2,
    ((startup_saved_or_default sampleWorld (Sys.initial none) rfl).2 (Or.inl rfl)).2.1⟩

/-- C8, as stated, fails: the search function has no emptiness check.  With the
whitespace-only city " " stored, the startup search sends the geocoding request for
" " and the state changes; called with the empty text, the function sends a request
as well. -/
theorem startup_searches_blank_saved_city :
    jsTrim " " = "" ∧
    (startup sampleWorld (Sys.initial (some " "))).2.trace =
      [Event.geoRequest " ", Event.forecastRequest 16 80] ∧
    (startup sampleWorld (Sys.initial (some " "))).2.lastCity = some "Guntur" ∧
    (fetchForecastByCity sampleWorld "" (Sys.initial none)).2.trace =
      [Event.geoRequest "", Event.forecastRequest 16 80] ∧
    (fetchForecastByCity sampleWorld "" (Sys.initial none)).2 ≠ Sys.initial none := by
  decide

/-- C8, amended: a text whose trimmed value is empty is turned away by `handleSubmit`
(no request, no state change).  `fetchForecastByCity` makes no such check: given that
text it first sends the geocoding request for it, and the startup effect hands it any
stored city that is not the empty string, a whitespace-only one included. -/
theorem blank_query_stopped_by_handleSubmit_only (w : World) (s : Sys) (q : String)
    (hq : jsTrim q = "") :
    handleSubmit w (setCity q s) = (.normal, emit Event.preventDefault (setCity q s)) ∧
    (s.trace ++ [Event.geoRequest q]) <+: (fetchForecastByCity w q s).2.trace ∧
    (w.getItemThrows = false → s.lastCity = some q → q ≠ "" →
      (s.trace ++ [Event.geoRequest q]) <+: (startup w s).2.trace) := by
  refine ⟨?_, fetch_trace_starts w q s, ?_⟩
  · simp [handleSubmit, emit, setCity, hq]
  · intro hread hsaved hne
    have heq : startup w s = fetchForecastByCity w q (setCity q s) := by
      simp [startup, hread, hsaved, hne]
    rw [heq]
    exact fetch_trace_starts w q (setCity q s)

theorem blank_query_stopped_by_handleSubmit_only_witness :
    jsTrim " " = "" ∧
    handleSubmit sampleWorld (setCity " " (Sys.initial (some " "))) =
      (.normal, emit Event.preventDefault (setCity " " (Sys.initial (some " ")))) ∧
    ((Sys.initial (some " ")).trace ++ [Event.geoRequest " "]) <+:
      (fetchForecastByCity sampleWorld " " (Sys.initial (some " "))).2.trace ∧
    ((Sys.initial (some " ")).trace ++ [Event.geoRequest " "]) <+:
      (startup sampleWorld (Sys.initial (some " "))).2.trace :=
  ⟨by decide,
    (blank_query_stopped_by_handleSubmit_only sampleWorld (Sys.initial (some " ")) " "
      (by decide)).1,
    (blank_query_stopped_by_handleSubmit_only sampleWorld (Sys.initial (some " ")) " "
      (by decide)).2.1,
    (blank_query_stopped_by_handleSubmit_only sampleWorld (Sys.initial (some " ")) " "
      (by decide)).2.2 rfl rfl (by decide)⟩

/-- C9, as stated, fails: when `localStorage.getItem` throws, the startup effect throws
too; the input text stays empty and no search for the default city is started. -/
theorem startup_storage_read_throws :
    storageBlockedWorld.getItemThrows = true ∧
    (startup storageBlockedWorld (Sys.initial none)).1 = .threw ∧
    (startup storageBlockedWorld (Sys.initial none)).2.city = "" ∧
    (startup storageBlockedWorld (Sys.initial none)).2.trace = [] := by
  decide

/-- C9, amended: when the storage read returns, the startup effect does not throw, and
an absent value makes it fall back to "Jammalamadugu"; when the storage read throws,
the effect throws and leaves the state as it was (no fallback, no search). -/
theorem startup_storage_read_outcomes (w : World) (s : Sys) :
    (w.getItemThrows = false →
      (startup w s).1 ≠ .threw ∧
      (s.lastCity = none →
        startup w s = fetchForecastByCity w "Jammalamadugu" (setCity "Jammalamadugu" s))) ∧
    (w.getItemThrows = true → startup w s = (.threw, s)) := by
  constructor
  · intro hread
    constructor
    · unfold startup
      simp only [hread]
      cases s.lastCity with
      | none => exact fetch_never_throws w _ _
      | some savedCity =>
        by_cases hne : savedCity ≠ ""
        · simpa [hne] using fetch_never_throws w _ _
        · simpa [hne] using fetch_never_throws w _ _
    · intro hnone
      simp [startup, hread, hnone, defaultCity]
  · intro hread
    simp [startup, hread]

theorem startup_storage_read_outcomes_witness :
    sampleWorld.getItemThrows = false ∧
    (startup sampleWorld (Sys.initial none)).1 ≠ .threw ∧
    startup sampleWorld (Sys.initial none) =
      fetchForecastByCity sampleWorld "Jammalamadugu" (setCity "Jammalamadugu" (Sys.initial none)) ∧
    storageBlockedWorld.getItemThrows = true ∧
    startup storageBlockedWorld (Sys.initial none) = (.threw, Sys.initial none) :=
  ⟨rfl,
    ((startup_storage_read_outcomes sampleWorld (Sys.initial none)).1 rfl).1,
    ((startup_storage_read_outcomes sampleWorld (Sys.initial none)).1 rfl).2 rfl,
    rfl,
    (startup_storage_read_outcomes storageBlockedWorld (Sys.initial none)).2 rfl⟩

/-! ## `handleSubmit` -/

/-- C7: when the input text is empty or made of whitespace only, `handleSubmit`
returns at once: input text, forecast, loading flag, error message and stored
`"lastCity"` are what they were, and the only effect is `preventDefault` (no network
request). -/
theorem handleSubmit_blank_noop (w : World) (s : Sys)
    (hblank : ∀ c ∈ s.city.data, isJsWhiteSpace c = true) :
    (handleSubmit w s).1 = .normal ∧
    (handleSubmit w s).2.city = s.city ∧
    (handleSubmit w s).2.forecast = s.forecast ∧
    (handleSubmit w s).2.loading = s.loading ∧
    (handleSubmit w s).2.error = s.error ∧
    (handleSubmit w s).2.lastCity = s.lastCity ∧
    (handleSubmit w s).2.trace = s.trace ++ [Event.preventDefault] ∧
    (handleSubmit w s).2.trace.filter Event.isRequest = s.trace.filter Event.isRequest := by
  have hq : jsTrim s.city = "" := (jsTrim_eq_empty_iff s.city).mpr hblank
  simp [handleSubmit, emit, hq, Event.isRequest]

theorem handleSubmit_blank_noop_witness :
    (∀ c ∈ (setCity " \t " afterKadapa).city.data, isJsWhiteSpace c = true) ∧
    (handleSubmit sampleWorld (setCity " \t " afterKadapa)).2.forecast = afterKadapa.forecast ∧
    (handleSubmit sampleWorld (setCity " \t " afterKadapa)).2.lastCity = some "Kadapa" ∧
    (handleSubmit sampleWorld (setCity " \t " afterKadapa)).2.trace = [Event.preventDefault] :=
  ⟨by decide,
    (handleSubmit_blank_noop sampleWorld (setCity " \t " afterKadapa) (by decide)).2.2.1,
    (handleSubmit_blank_noop sampleWorld (setCity " \t " afterKadapa) (by decide)).2.2.2.2.2.1,
    (handleSubmit_blank_noop sampleWorld (setCity " \t " afterKadapa) (by decide)).2.2.2.2.2.2.1⟩

/-! ## The finalizer -/

/-- C10: a search that settles (neither awaited request stays pending) returns
normally, so nothing propagates out of `fetchForecastByCity`, and its final state has
the loading flag `false`, whichever branch ran: success, no match, a failed geocoding
call, a failed forecast call, or a failed `localStorage.setItem`. -/
theorem fetch_settled_not_loading (w : World) (cityName : String) (s : Sys)
    (hsettled : (fetchForecastByCity w cityName s).1 ≠ .pending) :
    (fetchForecastByCity w cityName s).1 = .normal ∧
    (fetchForecastByCity w cityName s).2.loading = false := by
  revert hsettled
  unfold fetchForecastByCity
  rcases fetchTryBlock w cityName s with ⟨c, s1⟩
  cases c <;> simp [setLoading]

theorem fetch_settled_not_loading_witness :
    storageBlockedWorld.setItemThrows "Guntur" = true ∧
    (fetchForecastByCity storageBlockedWorld "gunt" afterKadapa).1 ≠ .pending ∧
    (fetchForecastByCity storageBlockedWorld "gunt" afterKadapa).1 = .normal ∧
    (fetchForecastByCity storageBlockedWorld "gunt" afterKadapa).2.loading = false :=
  ⟨rfl, by decide,
    fetch_settled_not_loading storageBlockedWorld "gunt" afterKadapa (by decide)⟩

end WeatherApp
